import Mathlib

/-!
Shallow embedding of the `remind101/amqp` Go package (a thin client wrapper
over an AMQP 0-9-1 broker library) and proofs about its behaviour.

Modelling conventions:
* Go `error` values are `Option Err` with `none` for `nil` (`Err` is the error
  message string).
* The underlying broker library (`github.com/streadway/amqp`) is external; its
  calls are modelled by an explicit environment (`Env`, `NewExchangeEnv`)
  supplying the result of each primitive call, and each wrapper operation also
  returns the ordered trace of broker operations (`BrokerOp`) it performed.
* Go pointer-receiver mutation is modelled by explicit state passing: a method
  returns the updated receiver together with its Go return values.
* Go function values (the disconnect callbacks) are modelled by the abstract
  type `Callback`; a nil function pointer is `Option Callback` with `none`.
* `uint64` delivery tags are modelled as `Nat` (no arithmetic is performed on
  them, so overflow is irrelevant); `[]byte` bodies are modelled by the
  `String` whose bytes they are; `amqp.Table` header maps are modelled as
  association lists with string values (the package only ever stores strings).
-/

namespace Amqp

/-- Go `error` values: the error message. `Option Err` is a nilable error. -/
abbrev Err := String

/-- An `amqp.Table` (`map[string]interface{}`): association list of headers. -/
abbrev Table := List (String × String)

/-- A disconnect callback (`func()` in Go), abstractly: either the package's
`DefaultOnDisconnect` or a caller-supplied function identified by an id. -/
inductive Callback
  | defaultOnDisconnect
  | custom (id : Nat)
  deriving DecidableEq, Repr

/-- `DefaultOnDisconnect` is the default callback for when AMQP gets
disconnected (in Go it halts the process; here it is the distinguished
`Callback.defaultOnDisconnect` value). -/
def DefaultOnDisconnect : Callback := Callback.defaultOnDisconnect

/-- `DefaultURL` is the default amqp url to connect to. -/
def DefaultURL : String := "amqp://localhost"

/-- `ExchangeOptions` can be passed to `NewExchange` to configure the Exchange.
`OnDisconnect` is a nilable function pointer. -/
structure ExchangeOptions where
  Name : String
  Type' : String
  Durable : Bool
  AutoDelete : Bool
  OnDisconnect : Option Callback
  deriving DecidableEq, Repr

/-- `DefaultExchangeOptions` are the default options used when building a new
Exchange. -/
def DefaultExchangeOptions : ExchangeOptions :=
  { Name := "hutch"
    Type' := "topic"
    Durable := true
    AutoDelete := false
    OnDisconnect := some DefaultOnDisconnect }

/-- `QueueOptions` can be passed to `NewQueue` to configure the queue.
Go `int` fields are modelled as `Int`. -/
structure QueueOptions where
  Durable : Bool
  AutoDelete : Bool
  RoutingKey : String
  PrefetchCount : Int
  PrefetchSize : Int
  deriving DecidableEq, Repr

/-- `DefaultQueueOptions` are the default options used when building a new
Queue (`PrefetchCount`/`PrefetchSize` are Go zero values). -/
def DefaultQueueOptions : QueueOptions :=
  { Durable := true
    AutoDelete := false
    RoutingKey := ""
    PrefetchCount := 0
    PrefetchSize := 0 }

/-- `Acknowledgement` specifies an acknowledgement type (a Go `int` with
`iota` constants `Unacknowledged = 0`, `Acked = 1`, `Requeued = 2`,
`Dropped = 3`). -/
inductive Acknowledgement
  | Unacknowledged
  | Acked
  | Requeued
  | Dropped
  deriving DecidableEq, Repr

/-- `Acknowledgement.String()`. -/
def Acknowledgement.toString : Acknowledgement → String
  | .Acked => "acked"
  | .Requeued => "requeued"
  | .Dropped => "dropped"
  | .Unacknowledged => "unacknowledged"

/-- `ErrAlreadyAcked` is returned by the `NullAcknowledger` if the message has
already been acked. -/
def ErrAlreadyAcked : Err := "already acked"

/-- `NullAcknowledger` stores the acknowledgement in a variable. -/
structure NullAcknowledger where
  acked : Bool
  Acknowledgement : Acknowledgement
  deriving DecidableEq, Repr

/-- A freshly constructed `NullAcknowledger` (`&NullAcknowledger{}`): the Go
zero value, `acked = false`, `Acknowledgement = Unacknowledged (= 0)`. -/
def NullAcknowledger.zero : NullAcknowledger :=
  { acked := false, Acknowledgement := .Unacknowledged }

/-- `NullAcknowledger.Ack`: pointer-receiver method, returns the updated
receiver and the Go error result. -/
def NullAcknowledger.Ack (a : NullAcknowledger) : NullAcknowledger × Option Err :=
  if a.acked then
    (a, some ErrAlreadyAcked)
  else
    ({ acked := true, Acknowledgement := .Acked }, none)

/-- `NullAcknowledger.Nack`: pointer-receiver method, returns the updated
receiver and the Go error result. -/
def NullAcknowledger.Nack (a : NullAcknowledger) (requeue : Bool) :
    NullAcknowledger × Option Err :=
  if a.acked then
    (a, some ErrAlreadyAcked)
  else
    ({ acked := true
       Acknowledgement := if requeue then .Requeued else .Dropped }, none)

/-- AMQP delivery modes of the underlying library: `amqp.Transient = 1`. -/
def Transient : Nat := 1

/-- `amqp.Persistent = 2`. -/
def Persistent : Nat := 2

/-- An `amqp.Publishing`: the message handed to `channel.Publish`. -/
structure Publishing where
  Headers : Table
  ContentType : String
  Body : String
  DeliveryMode : Nat
  Priority : Nat
  deriving DecidableEq, Repr

/-- A raw broker delivery (`amqp.Delivery`), as received on the consume
channel: the broker-assigned tag, the underlying `amqp.Acknowledger` handle
(identified by a `Nat`), headers and body. -/
structure Delivery where
  DeliveryTag : Nat
  ackBackend : Nat
  Headers : Table
  Body : String
  deriving DecidableEq, Repr

/-- The wrapper `acknowledger` struct: wraps the delivery's underlying
`amqp.Acknowledger` and closes over its delivery tag. -/
structure WrappedAcknowledger where
  backend : Nat
  deliveryTag : Nat
  deriving DecidableEq, Repr

/-- A `Message`: the wrapped acknowledger (the consume loop always
constructs the concrete `acknowledger` struct), headers and body. -/
structure Message where
  Acknowledger : WrappedAcknowledger
  Headers : Table
  Body : String
  deriving DecidableEq, Repr

/-- One primitive call into the underlying broker library, with the
arguments the wrapper passes to it. -/
inductive BrokerOp
  | channelClose
  | connectionClose
  | channelPublish (exchange routingKey : String) (mandatory immediate : Bool)
      (msg : Publishing)
  | cancel (consumer : String) (noWait : Bool)
  | notifyClose
  | recvNotifyClose
  | queueDeclare (name : String) (durable autoDelete exclusive noWait : Bool)
  | queuePurge (name : String) (noWait : Bool)
  | qos (prefetchCount prefetchSize : Int) (global : Bool)
  | queueBind (name key exchange : String) (noWait : Bool)
  | consume (queue consumer : String) (autoAck exclusive noLocal noWait : Bool)
  deriving DecidableEq, Repr

/-- The broker environment: the result each primitive call of the underlying
library would return, and the delivery stream the broker produces (a finite
list of deliveries after which the delivery channel closes). -/
structure Env where
  channelCloseErr : Option Err
  connectionCloseErr : Option Err
  publishErr : Option Err
  cancelErr : Option Err
  notifyCloseRecv : Option Err
  queueDeclareErr : Option Err
  purgeErr : Option Err
  qosErr : Option Err
  bindErr : Option Err
  consumeErr : Option Err
  deliveries : List Delivery
  deriving DecidableEq, Repr

/-- An `Exchange`: wraps an `amqp.Connection` and an `amqp.Channel`. The
nilable channel pointer is `Option Unit` (`none` = nil); the connection
handle carries no modelled state. -/
structure Exchange where
  Name : String
  channel : Option Unit
  onDisconnect : Callback
  deriving DecidableEq, Repr

/-- `channel.Close()`: the call and its result. -/
def channelClose (env : Env) : BrokerOp × Option Err :=
  (.channelClose, env.channelCloseErr)

/-- `connection.Close()`: the call and its result. -/
def connectionClose (env : Env) : BrokerOp × Option Err :=
  (.connectionClose, env.connectionCloseErr)

/-- `Exchange.Close`: closes the channel, and if that succeeded closes the
connection. Returns the trace of broker calls and the Go error result. -/
def Exchange.Close (e : Exchange) (env : Env) : List BrokerOp × Option Err :=
  let (op₁, err₁) := channelClose env
  match err₁ with
  | some err => ([op₁], some err)
  | none =>
    let (op₂, err₂) := connectionClose env
    ([op₁, op₂], err₂)

/-- `Exchange.publish`: the unexported helper shared by `Publish` and
`PublishTransient`. -/
def Exchange.publish (e : Exchange) (env : Env)
    (routingKey message requestID : String) (deliveryMode : Nat) :
    List BrokerOp × Option Err :=
  match e.channel with
  | none => ([], some "channel is nil")
  | some _ =>
    let msg : Publishing :=
      { Headers := [("request_id", requestID)]
        ContentType := "application/json"
        Body := message
        DeliveryMode := deliveryMode
        Priority := 0 }
    ([.channelPublish e.Name routingKey false false msg], env.publishErr)

/-- `Exchange.Publish` publishes a persistent message to the Exchange. -/
def Exchange.Publish (e : Exchange) (env : Env)
    (routingKey message requestID : String) : List BrokerOp × Option Err :=
  e.publish env routingKey message requestID Persistent

/-- `Exchange.PublishTransient` publishes a transient message. -/
def Exchange.PublishTransient (e : Exchange) (env : Env)
    (routingKey message requestID : String) : List BrokerOp × Option Err :=
  e.publish env routingKey message requestID Transient

/-- A `Queue`: back-reference to the owning Exchange, routing key and name. -/
structure Queue where
  exchange : Exchange
  routingKey : String
  name : String
  deriving DecidableEq, Repr

/-- `NewQueue`: declares the queue, optionally applies QoS, and returns the
`Queue` (Go returns `(nil, err)` on failure, modelled as `Except`). -/
def NewQueue (env : Env) (queueName : String) (exchange : Exchange)
    (options : Option QueueOptions) : List BrokerOp × Except Err Queue :=
  let options := options.getD DefaultQueueOptions
  let declOp : BrokerOp :=
    .queueDeclare queueName options.Durable options.AutoDelete false false
  match env.queueDeclareErr with
  | some err => ([declOp], .error err)
  | none =>
    if options.PrefetchCount > 0 || options.PrefetchSize > 0 then
      let qosOp : BrokerOp := .qos options.PrefetchCount options.PrefetchSize false
      match env.qosErr with
      | some err => ([declOp, qosOp], .error err)
      | none =>
        ([declOp, qosOp],
         .ok { exchange := exchange, routingKey := options.RoutingKey, name := queueName })
    else
      ([declOp],
       .ok { exchange := exchange, routingKey := options.RoutingKey, name := queueName })

/-- `Queue.Purge` purges all messages in the queue
(`channel.QueuePurge(q.name, false)`, the message count discarded). -/
def Queue.Purge (q : Queue) (env : Env) : List BrokerOp × Option Err :=
  ([.queuePurge q.name false], env.purgeErr)

/-- `Queue.consumerName` (unexported): the consumer name is the queue name. -/
def Queue.consumerName (q : Queue) : String :=
  q.name

/-- `Queue.bind` (unexported): binds the queue to the exchange under the
queue's routing key, `noWait = false`. -/
def Queue.bind (q : Queue) (env : Env) : BrokerOp × Option Err :=
  (.queueBind q.name q.routingKey q.exchange.Name false, env.bindErr)

/-- Wrap one raw delivery into a `Message`, exactly as the consume loop
does: the `acknowledger` wraps `d.Acknowledger` and closes over
`d.DeliveryTag`; headers and body are the delivery's. -/
def wrapDelivery (d : Delivery) : Message :=
  { Acknowledger := { backend := d.ackBackend, deliveryTag := d.DeliveryTag }
    Headers := d.Headers
    Body := d.Body }

/-- Outcome of the consume goroutine started by `Subscribe`: the messages
sent to the caller's output channel in order, the list of disconnect
callbacks invoked (in order), and whether the loop closed the output
channel. -/
structure LoopResult where
  sent : List Message
  callbackCalls : List Callback
  outputClosed : Bool
  deriving DecidableEq, Repr

/-- The consume goroutine: receives deliveries until the broker-side
delivery channel closes (the end of the list, where receive reports
not-ok); each delivery is wrapped and sent to output; on close the
disconnect callback `cb` is invoked, `open` is set to false and the loop
terminates without closing the output channel. -/
def consumeLoop (cb : Callback) : List Delivery → LoopResult
  | [] => { sent := [], callbackCalls := [cb], outputClosed := false }
  | d :: rest =>
    let r := consumeLoop cb rest
    { r with sent := wrapDelivery d :: r.sent }

/-- `Queue.Subscribe`: binds, then starts consuming; on success the spawned
goroutine's complete outcome is returned as the `LoopResult`. -/
def Queue.Subscribe (q : Queue) (env : Env) :
    List BrokerOp × Except Err LoopResult :=
  let (bindOp, bindErr) := q.bind env
  match bindErr with
  | some err => ([bindOp], .error err)
  | none =>
    let consumeOp : BrokerOp :=
      .consume q.name q.consumerName false false false false
    match env.consumeErr with
    | some err => ([bindOp, consumeOp], .error err)
    | none =>
      ([bindOp, consumeOp], .ok (consumeLoop q.exchange.onDisconnect env.deliveries))

/-- `Queue.Close`: cancels the consumer (returning on error), registers the
close notification, closes the owning Exchange (result discarded), then
receives on the notification channel and returns that error if non-nil. -/
def Queue.Close (q : Queue) (env : Env) : List BrokerOp × Option Err :=
  match env.cancelErr with
  | some err => ([.cancel q.consumerName false], some err)
  | none =>
    let (closeOps, _closeErr) := q.exchange.Close env
    let ops := [BrokerOp.cancel q.consumerName false, BrokerOp.notifyClose] ++
      closeOps ++ [BrokerOp.recvNotifyClose]
    match env.notifyCloseRecv with
    | some err => (ops, some err)
    | none => (ops, none)

/-- Environment for `NewExchange`: the results of `amqp.Dial`,
`connection.Channel()` and `channel.ExchangeDeclare`. -/
structure NewExchangeEnv where
  dialErr : Option Err
  channelErr : Option Err
  declareErr : Option Err
  deriving DecidableEq, Repr

/-- `NewExchange`: connects, opens a channel, defaults a nil `OnDisconnect`
(mutating the caller's options struct through the pointer), and declares the
exchange. Returns the Go result together with the caller-supplied options
struct as it stands after the call (`none` when the caller passed nil). -/
def NewExchange (env : NewExchangeEnv) (url : String)
    (options₀ : Option ExchangeOptions) :
    Except Err Exchange × Option ExchangeOptions :=
  let _url := if url = "" then DefaultURL else url
  let options := options₀.getD DefaultExchangeOptions
  match env.dialErr with
  | some err => (.error err, options₀)
  | none =>
    match env.channelErr with
    | some err => (.error err, options₀)
    | none =>
      let onDisc := match options.OnDisconnect with
        | none => DefaultOnDisconnect
        | some cb => cb
      let options := { options with OnDisconnect := some onDisc }
      let callerOptions := options₀.map fun _ => options
      match env.declareErr with
      | some err => (.error err, callerOptions)
      | none =>
        (.ok { Name := options.Name, channel := some (), onDisconnect := onDisc },
         callerOptions)

/-- A concrete environment in which every broker call succeeds and the
broker delivers two messages before the delivery channel closes. -/
def envAllOk : Env :=
  { channelCloseErr := none
    connectionCloseErr := none
    publishErr := none
    cancelErr := none
    notifyCloseRecv := none
    queueDeclareErr := none
    purgeErr := none
    qosErr := none
    bindErr := none
    consumeErr := none
    deliveries :=
      [{ DeliveryTag := 3, ackBackend := 5, Headers := [("k", "v")], Body := "payload" },
       { DeliveryTag := 4, ackBackend := 5, Headers := [], Body := "p2" }] }

/-- A concrete environment in which cancellation and the close notification
succeed but closing the channel and the connection both fail. -/
def envCloseFails : Env :=
  { envAllOk with
    channelCloseErr := some "channel close failed"
    connectionCloseErr := some "connection close failed" }

/-- A concrete exchange with a live channel and a caller-supplied
disconnect callback. -/
def sampleExchange : Exchange :=
  { Name := "hutch", channel := some (), onDisconnect := .custom 7 }

/-- A concrete queue on `sampleExchange`. -/
def sampleQueue : Queue :=
  { exchange := sampleExchange, routingKey := "events", name := "q1" }

/-- Concrete `NewExchange` options whose `OnDisconnect` is nil. -/
def sampleOpts : ExchangeOptions :=
  { Name := "jobs", Type' := "direct", Durable := false, AutoDelete := true
    OnDisconnect := none }

/-- A concrete `NewExchange` environment in which every step succeeds. -/
def envNewExchangeOk : NewExchangeEnv :=
  { dialErr := none, channelErr := none, declareErr := none }

end Amqp

namespace Amqp

/-- The Go boolean prefetch test agrees with the proposition that at least
one prefetch setting is positive. -/
theorem prefetchPositive_iff (o : QueueOptions) :
    (o.PrefetchCount > 0 || o.PrefetchSize > 0) = true ↔
      (0 < o.PrefetchCount ∨ 0 < o.PrefetchSize) := by
  simp

/-- Complete characterization of the consume loop: it forwards exactly the
wrapped deliveries in arrival order, invokes the disconnect callback exactly
once (at stream close), and never closes the output channel. -/
theorem consumeLoop_eq (cb : Callback) (ds : List Delivery) :
    consumeLoop cb ds =
      { sent := ds.map wrapDelivery
        callbackCalls := [cb]
        outputClosed := false } := by
  induction ds with
  | nil => rfl
  | cons d rest ih => simp [consumeLoop, ih]

/-- C4: A freshly constructed NullAcknowledger reports the Unacknowledged
decision; a first Ack succeeds and records Acked; a first Nack with
requeue=true succeeds and records Requeued; a first Nack with requeue=false
succeeds and records Dropped. -/
theorem nullAcknowledger_fresh_and_first_call :
    NullAcknowledger.zero.Acknowledgement = .Unacknowledged ∧
    NullAcknowledger.zero.Ack =
      ({ acked := true, Acknowledgement := .Acked }, none) ∧
    NullAcknowledger.zero.Nack true =
      ({ acked := true, Acknowledgement := .Requeued }, none) ∧
    NullAcknowledger.zero.Nack false =
      ({ acked := true, Acknowledgement := .Dropped }, none) := by
  refine ⟨rfl, rfl, rfl, rfl⟩

/-- C3: once one terminal call (Ack, or Nack with either flag) has succeeded
on a NullAcknowledger, every subsequent Ack or Nack returns the
"already acked" error and leaves both the recorded decision and the acked
flag unchanged. -/
theorem nullAcknowledger_second_call_fails (a₀ a₁ : NullAcknowledger)
    (h : a₀.Ack = (a₁, none) ∨ ∃ rq, a₀.Nack rq = (a₁, none)) :
    a₁.Ack = (a₁, some ErrAlreadyAcked) ∧
    ∀ rq, a₁.Nack rq = (a₁, some ErrAlreadyAcked) := by
  have hacked : a₁.acked = true := by
    rcases h with h | ⟨rq, h⟩
    · by_cases hc : a₀.acked
      · simp [NullAcknowledger.Ack, hc] at h
      · simp [NullAcknowledger.Ack, hc] at h
        rw [← h]
    · by_cases hc : a₀.acked
      · simp [NullAcknowledger.Nack, hc] at h
      · simp [NullAcknowledger.Nack, hc] at h
        rw [← h]
  constructor
  · simp [NullAcknowledger.Ack, hacked]
  · intro rq
    simp [NullAcknowledger.Nack, hacked]

/-- Witness for C3 at a concrete input: acking a fresh NullAcknowledger once
succeeds, after which Ack and both Nacks fail with "already acked" and leave
the state unchanged. -/
theorem nullAcknowledger_second_call_fails_witness :
    NullAcknowledger.Ack { acked := true, Acknowledgement := .Acked } =
      ({ acked := true, Acknowledgement := .Acked }, some ErrAlreadyAcked) ∧
    NullAcknowledger.Nack { acked := true, Acknowledgement := .Acked } true =
      ({ acked := true, Acknowledgement := .Acked }, some ErrAlreadyAcked) ∧
    NullAcknowledger.Nack { acked := true, Acknowledgement := .Acked } false =
      ({ acked := true, Acknowledgement := .Acked }, some ErrAlreadyAcked) :=
  ⟨(nullAcknowledger_second_call_fails NullAcknowledger.zero
      { acked := true, Acknowledgement := .Acked } (Or.inl rfl)).1,
   (nullAcknowledger_second_call_fails NullAcknowledger.zero
      { acked := true, Acknowledgement := .Acked } (Or.inl rfl)).2 true,
   (nullAcknowledger_second_call_fails NullAcknowledger.zero
      { acked := true, Acknowledgement := .Acked } (Or.inl rfl)).2 false⟩

/-- C1: when the broker-side delivery stream of a subscription closes, the
consume loop started by Subscribe invokes the owning Exchange's registered
disconnect callback exactly once and terminates, and it never closes the
caller-supplied output channel. -/
theorem subscribe_disconnect_callback_once (q : Queue) (env : Env)
    (hb : env.bindErr = none) (hc : env.consumeErr = none) :
    (q.Subscribe env).2.map (fun r => (r.callbackCalls, r.outputClosed)) =
      .ok ([q.exchange.onDisconnect], false) := by
  simp [Queue.Subscribe, Queue.bind, hb, hc, consumeLoop_eq, Except.map]

/-- Witness for C1: on a concrete queue and a stream of two deliveries
followed by close, the spawned loop calls the exchange's callback exactly
once and leaves the output channel open. -/
theorem subscribe_disconnect_callback_once_witness :
    (sampleQueue.Subscribe envAllOk).2.map
        (fun r => (r.callbackCalls, r.outputClosed)) =
      .ok ([Callback.custom 7], false) :=
  subscribe_disconnect_callback_once sampleQueue envAllOk rfl rfl

/-- C2: Queue.Close cancels the consumer under the queue's name with
no-wait false, returning that error and doing nothing else if cancellation
fails; otherwise it closes the owning Exchange, receives on the
channel-close notification, and returns the received notification error
when non-nil and nil otherwise. -/
theorem queue_close_cancel_close_wait (q : Queue) (env : Env) :
    Queue.Close q env =
      match env.cancelErr with
      | some err => ([BrokerOp.cancel q.name false], some err)
      | none =>
        ([BrokerOp.cancel q.name false, BrokerOp.notifyClose] ++
           (q.exchange.Close env).1 ++ [BrokerOp.recvNotifyClose],
         env.notifyCloseRecv) := by
  cases hcan : env.cancelErr with
  | some err => simp [Queue.Close, Queue.consumerName, hcan]
  | none =>
    cases hnot : env.notifyCloseRecv with
    | some err => simp [Queue.Close, Queue.consumerName, hcan, hnot]
    | none => simp [Queue.Close, Queue.consumerName, hcan, hnot]

/-- C5: Exchange.Close closes the channel first and the connection second;
if the channel close fails, Close returns that error and the connection
close is never attempted; otherwise it returns the connection close's
result. -/
theorem exchange_close_channel_then_connection (e : Exchange) (env : Env) :
    Exchange.Close e env =
      match env.channelCloseErr with
      | some err => ([BrokerOp.channelClose], some err)
      | none =>
        ([BrokerOp.channelClose, BrokerOp.connectionClose],
         env.connectionCloseErr) := by
  cases h : env.channelCloseErr <;>
    simp [Exchange.Close, channelClose, connectionClose, h]

/-- C6: Subscribe binds the queue to the exchange under its routing key,
then consumes with consumer name equal to the queue name and
autoAck/exclusive/noLocal/noWait all false; each delivery is wrapped into a
Message whose acknowledger closes over that delivery's tag and backend and
whose headers and body are the delivery's, and the Messages reach the
output channel in arrival order. -/
theorem subscribe_bind_consume_forward (q : Queue) (env : Env)
    (hb : env.bindErr = none) (hc : env.consumeErr = none) :
    q.Subscribe env =
      ([BrokerOp.queueBind q.name q.routingKey q.exchange.Name false,
        BrokerOp.consume q.name q.name false false false false],
       .ok { sent := env.deliveries.map (fun d =>
               { Acknowledger := { backend := d.ackBackend
                                   deliveryTag := d.DeliveryTag }
                 Headers := d.Headers
                 Body := d.Body })
             callbackCalls := [q.exchange.onDisconnect]
             outputClosed := false }) := by
  simp [Queue.Subscribe, Queue.bind, Queue.consumerName, hb, hc,
    consumeLoop_eq, wrapDelivery]

/-- Witness for C6: concrete subscription whose two deliveries come out as
the two wrapped messages, in order, after a bind-then-consume trace. -/
theorem subscribe_bind_consume_forward_witness :
    sampleQueue.Subscribe envAllOk =
      ([BrokerOp.queueBind "q1" "events" "hutch" false,
        BrokerOp.consume "q1" "q1" false false false false],
       .ok { sent := [{ Acknowledger := { backend := 5, deliveryTag := 3 }
                        Headers := [("k", "v")]
                        Body := "payload" },
                      { Acknowledger := { backend := 5, deliveryTag := 4 }
                        Headers := []
                        Body := "p2" }]
             callbackCalls := [Callback.custom 7]
             outputClosed := false }) :=
  subscribe_bind_consume_forward sampleQueue envAllOk rfl rfl

/-- C7: Publish sends a message with delivery mode persistent, content type
application/json, exactly one header request_id carrying the given string,
priority 0 and the given string's bytes as body; PublishTransient sends the
identical message with delivery mode transient; both fail with
"channel is nil" and publish nothing when the channel is nil, and otherwise
return the underlying publish result. -/
theorem publish_message_shape (e : Exchange) (env : Env)
    (rk msg rid : String) :
    e.Publish env rk msg rid =
      (match e.channel with
       | none => ([], some "channel is nil")
       | some _ =>
         ([BrokerOp.channelPublish e.Name rk false false
             { Headers := [("request_id", rid)]
               ContentType := "application/json"
               Body := msg
               DeliveryMode := Persistent
               Priority := 0 }], env.publishErr)) ∧
    e.PublishTransient env rk msg rid =
      (match e.channel with
       | none => ([], some "channel is nil")
       | some _ =>
         ([BrokerOp.channelPublish e.Name rk false false
             { Headers := [("request_id", rid)]
               ContentType := "application/json"
               Body := msg
               DeliveryMode := Transient
               Priority := 0 }], env.publishErr)) := by
  obtain ⟨n, ch, cb⟩ := e
  cases ch <;>
    simp [Exchange.Publish, Exchange.PublishTransient, Exchange.publish]

/-- C8: NewQueue declares the queue with the options' durable and
auto-delete flags and exclusive/noWait false, applies channel QoS with the
given prefetch count and size exactly when at least one of them is
positive, defaults nil options to durable, non-auto-delete, empty routing
key and zero prefetch, and on a declare or QoS error returns no queue
together with that error. -/
theorem newQueue_declare_qos_defaults (env : Env) (qn : String)
    (ex : Exchange) (opts : Option QueueOptions) :
    NewQueue env qn ex opts =
      (let o := opts.getD
        { Durable := true, AutoDelete := false, RoutingKey := ""
          PrefetchCount := 0, PrefetchSize := 0 }
       match env.queueDeclareErr with
       | some err =>
         ([BrokerOp.queueDeclare qn o.Durable o.AutoDelete false false],
          .error err)
       | none =>
         if 0 < o.PrefetchCount ∨ 0 < o.PrefetchSize then
           match env.qosErr with
           | some err =>
             ([BrokerOp.queueDeclare qn o.Durable o.AutoDelete false false,
               BrokerOp.qos o.PrefetchCount o.PrefetchSize false],
              .error err)
           | none =>
             ([BrokerOp.queueDeclare qn o.Durable o.AutoDelete false false,
               BrokerOp.qos o.PrefetchCount o.PrefetchSize false],
              .ok { exchange := ex, routingKey := o.RoutingKey, name := qn })
         else
           ([BrokerOp.queueDeclare qn o.Durable o.AutoDelete false false],
            .ok { exchange := ex, routingKey := o.RoutingKey, name := qn })) := by
  cases opts with
  | none =>
    cases hdecl : env.queueDeclareErr with
    | some err => simp [NewQueue, DefaultQueueOptions, hdecl]
    | none => simp [NewQueue, DefaultQueueOptions, hdecl]
  | some o =>
    cases hdecl : env.queueDeclareErr with
    | some err => simp [NewQueue, hdecl, DefaultQueueOptions]
    | none =>
      by_cases hpos : 0 < o.PrefetchCount ∨ 0 < o.PrefetchSize
      · have hb : (o.PrefetchCount > 0 || o.PrefetchSize > 0) = true :=
          (prefetchPositive_iff o).mpr hpos
        cases hqos : env.qosErr <;>
          simp [NewQueue, hdecl, hqos, hb, hpos, DefaultQueueOptions]
      · have hb : (o.PrefetchCount > 0 || o.PrefetchSize > 0) = false := by
          rw [Bool.eq_false_iff]
          intro hcontra
          exact hpos ((prefetchPositive_iff o).mp hcontra)
        simp [NewQueue, hdecl, hb, hpos, DefaultQueueOptions]

/-- C9: when cancellation succeeds and the channel-close notification
yields nil, Queue.Close returns nil even though the Exchange close it
performed may itself have failed (its error is discarded). -/
theorem queue_close_discards_exchange_error (q : Queue) (env : Env)
    (hcancel : env.cancelErr = none)
    (hnotify : env.notifyCloseRecv = none) :
    (q.Close env).2 = none := by
  simp [Queue.Close, hcancel, hnotify]

/-- Witness for C9: in an environment where both the channel close and the
connection close fail, Queue.Close still returns nil. -/
theorem queue_close_discards_exchange_error_witness :
    (sampleQueue.exchange.Close envCloseFails).2 = some "channel close failed" ∧
    (sampleQueue.Close envCloseFails).2 = none :=
  ⟨rfl, queue_close_discards_exchange_error sampleQueue envCloseFails rfl rfl⟩

/-- C10: when NewExchange is given non-nil options whose OnDisconnect is
nil and dialing and channel opening succeed, it writes the default
disconnect callback into the caller's options struct and leaves every other
field unchanged (whether or not the declare step later fails). -/
theorem newExchange_mutates_caller_options (env : NewExchangeEnv)
    (url : String) (opts : ExchangeOptions)
    (hd : env.dialErr = none) (hc : env.channelErr = none)
    (ho : opts.OnDisconnect = none) :
    (NewExchange env url (some opts)).2 =
      some { opts with OnDisconnect := some DefaultOnDisconnect } := by
  cases hdecl : env.declareErr <;>
    simp [NewExchange, hd, hc, ho, hdecl]

/-- Witness for C10: concrete options with nil OnDisconnect come back with
the default callback filled in and name, type, durable and auto-delete
intact. -/
theorem newExchange_mutates_caller_options_witness :
    (NewExchange envNewExchangeOk "amqp://host" (some sampleOpts)).2 =
      some { Name := "jobs", Type' := "direct", Durable := false
             AutoDelete := true, OnDisconnect := some DefaultOnDisconnect } :=
  newExchange_mutates_caller_options envNewExchangeOk "amqp://host"
    sampleOpts rfl rfl rfl

end Amqp
